import Mathlib

/-!
Shallow embedding of `src/mcpserver/fetch_metal_price.py`: the metal price
computation and normalization engine (constants, `calculate_prices`,
`get_usd_to_inr_rate`, `fetch_metal_data` responses, and the
`fetch_metal_price` tool body), with real-number arithmetic embedded as
exact rationals and upstream HTTP responses modelled as explicit input
values. Python strings are embedded as `List Char`; `str.lower()` and
`str.strip()` are modelled on the ASCII range they act on here.
-/

namespace MetalPrice

/-- `GST_RATE = 0.03` from the source, as an exact rational. -/
def GST_RATE : ℚ := 3 / 100

/-- `GRAMS_PER_OUNCE = 31.1035` from the source, as an exact rational. -/
def GRAMS_PER_OUNCE : ℚ := 311035 / 10000

/-- `FALLBACK_EXCHANGE_RATE = 83.0` from the source. -/
def FALLBACK_EXCHANGE_RATE : ℚ := 83

/-- The dictionary returned by `calculate_prices`: all five price
variations with taxes. -/
structure Prices where
  with_gst : ℚ
  with_import_duty : ℚ
  total : ℚ
  gst_amount : ℚ
  duty_amount : ℚ
deriving DecidableEq, Repr

/-- `calculate_prices(base_price, gst_rate, import_duty_rate)` from the
source: all price variations computed from one base price. -/
def calculate_prices (base_price gst_rate import_duty_rate : ℚ) : Prices :=
  { with_gst := base_price * (1 + gst_rate)
    with_import_duty := base_price * (1 + import_duty_rate)
    total := base_price * (1 + gst_rate + import_duty_rate)
    gst_amount := base_price * gst_rate
    duty_amount := base_price * import_duty_rate }

/-- One entry of `METAL_CONFIG`: display symbol, API price key, and the
metal-specific duty rate. -/
structure MetalConfig where
  symbol : String
  price_key : String
  import_duty : ℚ
deriving DecidableEq, Repr

/-- `METAL_CONFIG` from the source: the two defined metals with their
symbols, API price keys, and duty rates (gold 6%, silver 7.5%). -/
def METAL_CONFIG : List (List Char × MetalConfig) :=
  [("gold".data, { symbol := "🥇", price_key := "xauPrice", import_duty := 6 / 100 }),
   ("silver".data, { symbol := "🥈", price_key := "xagPrice", import_duty := 75 / 1000 })]

/-- Dictionary lookup `METAL_CONFIG[metal]` (with `metal in METAL_CONFIG`
membership as `isSome`). -/
def metalConfigLookup (m : List Char) : Option MetalConfig :=
  (METAL_CONFIG.find? (fun p => p.1 == m)).map Prod.snd

/-- The keys of `METAL_CONFIG`, in order, as joined into the
`Please choose from:` message of the source. -/
def metalConfigKeys : List (List Char) := METAL_CONFIG.map Prod.fst

/-- Python `str.lower()` on one character, on the ASCII range: maps each
of `A`-`Z` to its lowercase form and leaves every other character
unchanged. -/
def pyLowerChar (c : Char) : Char :=
  if c = 'A' then 'a' else if c = 'B' then 'b' else if c = 'C' then 'c' else
  if c = 'D' then 'd' else if c = 'E' then 'e' else if c = 'F' then 'f' else
  if c = 'G' then 'g' else if c = 'H' then 'h' else if c = 'I' then 'i' else
  if c = 'J' then 'j' else if c = 'K' then 'k' else if c = 'L' then 'l' else
  if c = 'M' then 'm' else if c = 'N' then 'n' else if c = 'O' then 'o' else
  if c = 'P' then 'p' else if c = 'Q' then 'q' else if c = 'R' then 'r' else
  if c = 'S' then 's' else if c = 'T' then 't' else if c = 'U' then 'u' else
  if c = 'V' then 'v' else if c = 'W' then 'w' else if c = 'X' then 'x' else
  if c = 'Y' then 'y' else if c = 'Z' then 'z' else c

/-- Python `str.lower()` over a whole string. -/
def pyLower (s : List Char) : List Char := s.map pyLowerChar

/-- The whitespace characters removed by Python `str.strip()` (ASCII
range): space, tab, newline, carriage return, form feed, vertical tab. -/
def pySpaceChar (c : Char) : Bool :=
  c == ' ' || c == '\t' || c == '\n' || c == '\x0d' || c == '\x0c' || c == '\x0b'

/-- Python `str.strip()`: remove leading and trailing whitespace. -/
def pyStrip (s : List Char) : List Char :=
  ((s.dropWhile pySpaceChar).reverse.dropWhile pySpaceChar).reverse

/-- The selector normalization `metal.lower().strip()` performed by
`fetch_metal_price` before validation. -/
def normalizeMetal (s : List Char) : List Char := pyStrip (pyLower s)

/-- The upstream exchange-rate response seen by `get_usd_to_inr_rate`:
`failure` models a raised-and-caught error (transport failure, non-2xx
status, undecodable body); `success inr` models a decoded JSON body where
`inr` is the value of `rates.INR` if both keys are present. -/
inductive RateResponse where
  | failure : RateResponse
  | success : Option ℚ → RateResponse
deriving DecidableEq, Repr

/-- `get_usd_to_inr_rate()` from the source: the live `rates.INR` value
when present, `FALLBACK_EXCHANGE_RATE` when the request fails or the key
is absent (the chained `.get` defaults and the `except` clause). -/
def get_usd_to_inr_rate (resp : RateResponse) : ℚ :=
  match resp with
  | .failure => FALLBACK_EXCHANGE_RATE
  | .success none => FALLBACK_EXCHANGE_RATE
  | .success (some v) => v

/-- The first item of the goldprice.org response as consumed by
`fetch_metal_price`: a dict queried via `metal_data.get(price_key)` at
keys `xauPrice` and `xagPrice`. -/
structure MetalData where
  xauPrice : Option ℚ
  xagPrice : Option ℚ
deriving DecidableEq, Repr

/-- `metal_data.get(price_key)` dispatching on the source's two price
keys (any other key would give `None`). -/
def MetalData.get (d : MetalData) (key : String) : Option ℚ :=
  if key == "xauPrice" then d.xauPrice
  else if key == "xagPrice" then d.xagPrice
  else none

/-- All quantities computed by the success path of `fetch_metal_price`
and interpolated into its report string. -/
structure Breakdown where
  current_price_usd : ℚ
  exchange_rate : ℚ
  current_price_inr : ℚ
  price_per_10g_usd : ℚ
  price_per_10g_inr : ℚ
  ounce_prices : Prices
  gram_prices : Prices
  import_duty_rate : ℚ
  metal_symbol : String
deriving DecidableEq, Repr

/-- The four return branches of `fetch_metal_price`: the three `❌` error
strings (invalid metal with the valid-metal list, no API data, price key
missing or falsy) and the success report. -/
inductive FetchResult where
  | invalidMetal : List Char → List (List Char) → FetchResult
  | noData : List Char → FetchResult
  | priceNotFound : List Char → FetchResult
  | report : Breakdown → FetchResult
deriving DecidableEq, Repr

/-- The body of `fetch_metal_price(metal)` from the source, with the two
upstream fetches (`fetch_metal_data` result and the exchange-rate
response) passed in as explicit values: normalize the selector, validate
it against `METAL_CONFIG`, check the fetched data, and build both the
per-ounce and per-10-gram tax breakdowns. -/
def fetch_metal_price (metal : List Char) (metal_data : Option MetalData)
    (rate_resp : RateResponse) : FetchResult :=
  let metal := normalizeMetal metal
  match metalConfigLookup metal with
  | none => .invalidMetal metal metalConfigKeys
  | some config =>
    let import_duty_rate := config.import_duty
    let exchange_rate := get_usd_to_inr_rate rate_resp
    match metal_data with
    | none => .noData metal
    | some md =>
      match md.get config.price_key with
      | none => .priceNotFound metal
      | some current_price_usd =>
        if current_price_usd == 0 then .priceNotFound metal
        else
          let current_price_inr := current_price_usd * exchange_rate
          let price_per_10g_usd := (current_price_usd / GRAMS_PER_OUNCE) * 10
          let price_per_10g_inr := (current_price_inr / GRAMS_PER_OUNCE) * 10
          .report
            { current_price_usd := current_price_usd
              exchange_rate := exchange_rate
              current_price_inr := current_price_inr
              price_per_10g_usd := price_per_10g_usd
              price_per_10g_inr := price_per_10g_inr
              ounce_prices := calculate_prices current_price_inr GST_RATE import_duty_rate
              gram_prices := calculate_prices price_per_10g_inr GST_RATE import_duty_rate
              import_duty_rate := import_duty_rate
              metal_symbol := config.symbol }

/-- `true` exactly on the three error branches of `fetch_metal_price`. -/
def FetchResult.isError : FetchResult → Bool
  | .invalidMetal _ _ => true
  | .noData _ => true
  | .priceNotFound _ => true
  | .report _ => false

/-- The per-ounce USD spot price of a successful result. -/
def FetchResult.usd : FetchResult → Option ℚ
  | .report b => some b.current_price_usd
  | _ => none

/-- The per-ounce INR base price of a successful result. -/
def FetchResult.inrBase : FetchResult → Option ℚ
  | .report b => some b.current_price_inr
  | _ => none

/-- The per-10-gram USD price of a successful result. -/
def FetchResult.usd10g : FetchResult → Option ℚ
  | .report b => some b.price_per_10g_usd
  | _ => none

/-- The per-10-gram INR base price of a successful result. -/
def FetchResult.inrBase10g : FetchResult → Option ℚ
  | .report b => some b.price_per_10g_inr
  | _ => none

/-- The per-ounce tax breakdown of a successful result. -/
def FetchResult.ouncePrices : FetchResult → Option Prices
  | .report b => some b.ounce_prices
  | _ => none

/-- The per-10-gram tax breakdown of a successful result. -/
def FetchResult.gramPrices : FetchResult → Option Prices
  | .report b => some b.gram_prices
  | _ => none

end MetalPrice

namespace MetalPrice

theorem length_dropWhile_le' {α : Type} (p : α → Bool) (l : List α) :
    (l.dropWhile p).length ≤ l.length := by
  induction l with
  | nil => simp
  | cons a t ih =>
    by_cases h : p a
    · simp only [List.dropWhile_cons, if_pos h, List.length_cons]
      omega
    · simp [List.dropWhile_cons, h]

theorem dropWhile_dropWhile {α : Type} (p : α → Bool) (l : List α) :
    (l.dropWhile p).dropWhile p = l.dropWhile p := by
  induction l with
  | nil => rfl
  | cons a t ih =>
    by_cases h : p a <;> simp [List.dropWhile_cons, h, ih]

theorem dropWhile_append_singleton {α : Type} (p : α → Bool) (a : α) (xs : List α)
    (h : p a = false) : (xs ++ [a]).dropWhile p = xs.dropWhile p ++ [a] := by
  induction xs with
  | nil => simp [List.dropWhile_cons, h]
  | cons x t ih =>
    by_cases hx : p x <;> simp [List.dropWhile_cons, hx, ih]

theorem dropWhile_eq_self_head {α : Type} (p : α → Bool) (a : α) (t : List α)
    (h : (a :: t).dropWhile p = a :: t) : p a = false := by
  by_cases hp : p a
  · exfalso
    rw [List.dropWhile_cons, if_pos hp] at h
    have hlen := length_dropWhile_le' p t
    rw [h] at hlen
    simp at hlen
  · exact eq_false_of_ne_true hp

theorem dropWhile_dropRight {α : Type} (p : α → Bool) (l : List α)
    (h : l.dropWhile p = l) :
    ((l.reverse.dropWhile p).reverse).dropWhile p = (l.reverse.dropWhile p).reverse := by
  cases l with
  | nil => simp
  | cons x t =>
    have hx : p x = false := dropWhile_eq_self_head p x t h
    have hrev : (x :: t).reverse = t.reverse ++ [x] := by simp
    rw [hrev, dropWhile_append_singleton p x t.reverse hx, List.reverse_append]
    simp only [List.reverse_cons, List.reverse_nil, List.nil_append, List.singleton_append]
    rw [List.dropWhile_cons, if_neg (by simp [hx])]

theorem pyStrip_idem (l : List Char) : pyStrip (pyStrip l) = pyStrip l := by
  unfold pyStrip
  rw [dropWhile_dropRight pySpaceChar (l.dropWhile pySpaceChar)
        (dropWhile_dropWhile pySpaceChar l),
      List.reverse_reverse, dropWhile_dropWhile]

theorem pyLowerChar_idem (c : Char) : pyLowerChar (pyLowerChar c) = pyLowerChar c := by
  by_cases hA : c = 'A'
  · subst hA; decide
  by_cases hB : c = 'B'
  · subst hB; decide
  by_cases hC : c = 'C'
  · subst hC; decide
  by_cases hD : c = 'D'
  · subst hD; decide
  by_cases hE : c = 'E'
  · subst hE; decide
  by_cases hF : c = 'F'
  · subst hF; decide
  by_cases hG : c = 'G'
  · subst hG; decide
  by_cases hH : c = 'H'
  · subst hH; decide
  by_cases hI : c = 'I'
  · subst hI; decide
  by_cases hJ : c = 'J'
  · subst hJ; decide
  by_cases hK : c = 'K'
  · subst hK; decide
  by_cases hL : c = 'L'
  · subst hL; decide
  by_cases hM : c = 'M'
  · subst hM; decide
  by_cases hN : c = 'N'
  · subst hN; decide
  by_cases hO : c = 'O'
  · subst hO; decide
  by_cases hP : c = 'P'
  · subst hP; decide
  by_cases hQ : c = 'Q'
  · subst hQ; decide
  by_cases hR : c = 'R'
  · subst hR; decide
  by_cases hS : c = 'S'
  · subst hS; decide
  by_cases hT : c = 'T'
  · subst hT; decide
  by_cases hU : c = 'U'
  · subst hU; decide
  by_cases hV : c = 'V'
  · subst hV; decide
  by_cases hW : c = 'W'
  · subst hW; decide
  by_cases hX : c = 'X'
  · subst hX; decide
  by_cases hY : c = 'Y'
  · subst hY; decide
  by_cases hZ : c = 'Z'
  · subst hZ; decide
  have hc : pyLowerChar c = c := by
    unfold pyLowerChar
    rw [if_neg hA, if_neg hB, if_neg hC, if_neg hD, if_neg hE, if_neg hF,
        if_neg hG, if_neg hH, if_neg hI, if_neg hJ, if_neg hK, if_neg hL,
        if_neg hM, if_neg hN, if_neg hO, if_neg hP, if_neg hQ, if_neg hR,
        if_neg hS, if_neg hT, if_neg hU, if_neg hV, if_neg hW, if_neg hX,
        if_neg hY, if_neg hZ]
  rw [hc, hc]

theorem pySpaceChar_pyLowerChar (c : Char) : pySpaceChar (pyLowerChar c) = pySpaceChar c := by
  by_cases hA : c = 'A'
  · subst hA; decide
  by_cases hB : c = 'B'
  · subst hB; decide
  by_cases hC : c = 'C'
  · subst hC; decide
  by_cases hD : c = 'D'
  · subst hD; decide
  by_cases hE : c = 'E'
  · subst hE; decide
  by_cases hF : c = 'F'
  · subst hF; decide
  by_cases hG : c = 'G'
  · subst hG; decide
  by_cases hH : c = 'H'
  · subst hH; decide
  by_cases hI : c = 'I'
  · subst hI; decide
  by_cases hJ : c = 'J'
  · subst hJ; decide
  by_cases hK : c = 'K'
  · subst hK; decide
  by_cases hL : c = 'L'
  · subst hL; decide
  by_cases hM : c = 'M'
  · subst hM; decide
  by_cases hN : c = 'N'
  · subst hN; decide
  by_cases hO : c = 'O'
  · subst hO; decide
  by_cases hP : c = 'P'
  · subst hP; decide
  by_cases hQ : c = 'Q'
  · subst hQ; decide
  by_cases hR : c = 'R'
  · subst hR; decide
  by_cases hS : c = 'S'
  · subst hS; decide
  by_cases hT : c = 'T'
  · subst hT; decide
  by_cases hU : c = 'U'
  · subst hU; decide
  by_cases hV : c = 'V'
  · subst hV; decide
  by_cases hW : c = 'W'
  · subst hW; decide
  by_cases hX : c = 'X'
  · subst hX; decide
  by_cases hY : c = 'Y'
  · subst hY; decide
  by_cases hZ : c = 'Z'
  · subst hZ; decide
  have hc : pyLowerChar c = c := by
    unfold pyLowerChar
    rw [if_neg hA, if_neg hB, if_neg hC, if_neg hD, if_neg hE, if_neg hF,
        if_neg hG, if_neg hH, if_neg hI, if_neg hJ, if_neg hK, if_neg hL,
        if_neg hM, if_neg hN, if_neg hO, if_neg hP, if_neg hQ, if_neg hR,
        if_neg hS, if_neg hT, if_neg hU, if_neg hV, if_neg hW, if_neg hX,
        if_neg hY, if_neg hZ]
  rw [hc]

theorem pyLower_pyLower (s : List Char) : pyLower (pyLower s) = pyLower s := by
  unfold pyLower
  rw [List.map_map]
  have : pyLowerChar ∘ pyLowerChar = pyLowerChar := funext pyLowerChar_idem
  rw [this]

theorem dropWhile_map_inv {α : Type} (f : α → α) (p : α → Bool)
    (hp : ∀ c, p (f c) = p c) (l : List α) :
    (l.map f).dropWhile p = (l.dropWhile p).map f := by
  induction l with
  | nil => rfl
  | cons a t ih =>
    by_cases h : p a <;> simp [List.dropWhile_cons, hp, h, ih]

theorem pyLower_pyStrip (s : List Char) : pyLower (pyStrip s) = pyStrip (pyLower s) := by
  unfold pyLower pyStrip
  rw [List.map_reverse, ← dropWhile_map_inv pyLowerChar pySpaceChar pySpaceChar_pyLowerChar,
      List.map_reverse, ← dropWhile_map_inv pyLowerChar pySpaceChar pySpaceChar_pyLowerChar]

theorem normalizeMetal_idem (s : List Char) :
    normalizeMetal (normalizeMetal s) = normalizeMetal s := by
  unfold normalizeMetal
  rw [pyLower_pyStrip (pyLower s), pyLower_pyLower, pyStrip_idem]

/-- C1: for every base price and duty rate, the breakdown built by
`calculate_prices` with `GST_RATE = 0.03` satisfies the five stated
formulas, and the total is the base plus the two tax amounts — the taxes
are additive on the same base, not compounded. -/
theorem C1_tax_formulas_additive (b d : ℚ) :
    (calculate_prices b GST_RATE d).total = b * (1 + 3 / 100 + d) ∧
    (calculate_prices b GST_RATE d).with_gst = b * (1 + 3 / 100) ∧
    (calculate_prices b GST_RATE d).with_import_duty = b * (1 + d) ∧
    (calculate_prices b GST_RATE d).gst_amount = b * (3 / 100) ∧
    (calculate_prices b GST_RATE d).duty_amount = b * d ∧
    (calculate_prices b GST_RATE d).total =
      b + (calculate_prices b GST_RATE d).gst_amount
        + (calculate_prices b GST_RATE d).duty_amount := by
  refine ⟨rfl, rfl, rfl, rfl, rfl, ?_⟩
  simp only [calculate_prices, GST_RATE]
  ring

/-- Metal data carrying a negative spot price of -5 USD/oz, as could be
fed in by the upstream collaborator. -/
def negativeSpotInput : Option MetalData := some { xauPrice := some (-5), xagPrice := none }

/-- An exchange-rate response whose live INR rate is 0, as could be fed
in by the upstream collaborator. -/
def zeroRateResponse : RateResponse := RateResponse.success (some 0)

/-- C2 counterexample: with a negative spot price (-5 USD/oz, rate 83)
the operation does not fail — it returns a report whose per-ounce total
is the negative value -9047/20 = -452.35 — and with a zero exchange rate
(spot 2000) it likewise returns a report whose per-ounce total is 0, so
non-positive inputs are not rejected with an error. -/
theorem C2_counterexample :
    (fetch_metal_price "gold".data negativeSpotInput (RateResponse.success (some 83))).isError
        = false ∧
    ((fetch_metal_price "gold".data negativeSpotInput
        (RateResponse.success (some 83))).ouncePrices).map Prices.total
        = some (-9047 / 20) ∧
    (fetch_metal_price "gold".data (some { xauPrice := some 2000, xagPrice := none })
        zeroRateResponse).isError = false ∧
    ((fetch_metal_price "gold".data (some { xauPrice := some 2000, xagPrice := none })
        zeroRateResponse).ouncePrices).map Prices.total = some 0 := by
  have h1 : fetch_metal_price "gold".data negativeSpotInput (RateResponse.success (some 83)) =
      FetchResult.report
        { current_price_usd := -5
          exchange_rate := 83
          current_price_inr := -5 * 83
          price_per_10g_usd := (-5 : ℚ) / GRAMS_PER_OUNCE * 10
          price_per_10g_inr := ((-5 : ℚ) * 83) / GRAMS_PER_OUNCE * 10
          ounce_prices := calculate_prices (-5 * 83) GST_RATE (6 / 100)
          gram_prices := calculate_prices (((-5 : ℚ) * 83) / GRAMS_PER_OUNCE * 10)
            GST_RATE (6 / 100)
          import_duty_rate := 6 / 100
          metal_symbol := "🥇" } := rfl
  have h2 : fetch_metal_price "gold".data
      (some { xauPrice := some 2000, xagPrice := none }) zeroRateResponse =
      FetchResult.report
        { current_price_usd := 2000
          exchange_rate := 0
          current_price_inr := 2000 * 0
          price_per_10g_usd := (2000 : ℚ) / GRAMS_PER_OUNCE * 10
          price_per_10g_inr := ((2000 : ℚ) * 0) / GRAMS_PER_OUNCE * 10
          ounce_prices := calculate_prices (2000 * 0) GST_RATE (6 / 100)
          gram_prices := calculate_prices (((2000 : ℚ) * 0) / GRAMS_PER_OUNCE * 10)
            GST_RATE (6 / 100)
          import_duty_rate := 6 / 100
          metal_symbol := "🥇" } := rfl
  rw [h1, h2]
  refine ⟨rfl, ?_, rfl, ?_⟩ <;>
    norm_num [FetchResult.ouncePrices, Option.map_some', calculate_prices, GST_RATE]

/-- C2 amended: the operation rejects only a missing (`None`) or zero
spot price, returning the price-not-found error, and rejects missing
metal data with the no-data error; negative spot prices and non-positive
exchange rates are not validated (see the counterexample, where they
silently produce a zero or negative breakdown). -/
theorem C2_amended_missing_or_zero_spot (m : List Char) (config : MetalConfig)
    (md : MetalData) (rr : RateResponse)
    (hcfg : metalConfigLookup (normalizeMetal m) = some config)
    (h : md.get config.price_key = none ∨ md.get config.price_key = some 0) :
    fetch_metal_price m (some md) rr = FetchResult.priceNotFound (normalizeMetal m) ∧
    fetch_metal_price m none rr = FetchResult.noData (normalizeMetal m) := by
  constructor
  · rcases h with h | h <;> simp [fetch_metal_price, hcfg, h]
  · simp [fetch_metal_price, hcfg]

/-- C2 amended witness: gold with a spot price of exactly 0 is rejected
with the price-not-found error, and missing metal data with the no-data
error. -/
theorem C2_amended_witness :
    fetch_metal_price "gold".data (some { xauPrice := some 0, xagPrice := none })
        RateResponse.failure = FetchResult.priceNotFound (normalizeMetal "gold".data) ∧
    fetch_metal_price "gold".data none RateResponse.failure
        = FetchResult.noData (normalizeMetal "gold".data) :=
  C2_amended_missing_or_zero_spot "gold".data
    { symbol := "🥇", price_key := "xauPrice", import_duty := 6 / 100 }
    { xauPrice := some 0, xagPrice := none } RateResponse.failure rfl (Or.inr rfl)

/-- C3: in every successful result, the per-10-gram USD and INR base
figures are the per-ounce figures scaled by 10 / 31.1035, and every
per-10-gram tax field is the corresponding per-ounce tax field scaled by
the same single factor — the tax formulas are applied to the scaled base,
with no unit-conversion drift and no tax double-application. -/
theorem C3_per_10g_single_scaling (m : List Char) (md : Option MetalData)
    (rr : RateResponse) :
    (fetch_metal_price m md rr).usd10g
      = ((fetch_metal_price m md rr).usd).map (fun s => s / GRAMS_PER_OUNCE * 10) ∧
    (fetch_metal_price m md rr).inrBase10g
      = ((fetch_metal_price m md rr).inrBase).map (fun s => s / GRAMS_PER_OUNCE * 10) ∧
    ((fetch_metal_price m md rr).gramPrices).map Prices.with_gst
      = ((fetch_metal_price m md rr).ouncePrices).map
          (fun p => p.with_gst * (10 / GRAMS_PER_OUNCE)) ∧
    ((fetch_metal_price m md rr).gramPrices).map Prices.with_import_duty
      = ((fetch_metal_price m md rr).ouncePrices).map
          (fun p => p.with_import_duty * (10 / GRAMS_PER_OUNCE)) ∧
    ((fetch_metal_price m md rr).gramPrices).map Prices.total
      = ((fetch_metal_price m md rr).ouncePrices).map
          (fun p => p.total * (10 / GRAMS_PER_OUNCE)) ∧
    ((fetch_metal_price m md rr).gramPrices).map Prices.gst_amount
      = ((fetch_metal_price m md rr).ouncePrices).map
          (fun p => p.gst_amount * (10 / GRAMS_PER_OUNCE)) ∧
    ((fetch_metal_price m md rr).gramPrices).map Prices.duty_amount
      = ((fetch_metal_price m md rr).ouncePrices).map
          (fun p => p.duty_amount * (10 / GRAMS_PER_OUNCE)) := by
  rcases hcfg : metalConfigLookup (normalizeMetal m) with _ | config
  · simp [fetch_metal_price, hcfg, FetchResult.usd, FetchResult.usd10g, FetchResult.inrBase,
      FetchResult.inrBase10g, FetchResult.ouncePrices, FetchResult.gramPrices]
  rcases md with _ | md
  · simp [fetch_metal_price, hcfg, FetchResult.usd, FetchResult.usd10g, FetchResult.inrBase,
      FetchResult.inrBase10g, FetchResult.ouncePrices, FetchResult.gramPrices]
  rcases hp : md.get config.price_key with _ | p
  · simp [fetch_metal_price, hcfg, hp, FetchResult.usd, FetchResult.usd10g, FetchResult.inrBase,
      FetchResult.inrBase10g, FetchResult.ouncePrices, FetchResult.gramPrices]
  by_cases hz : (p == 0) = true
  · simp [fetch_metal_price, hcfg, hp, hz, FetchResult.usd, FetchResult.usd10g,
      FetchResult.inrBase, FetchResult.inrBase10g, FetchResult.ouncePrices,
      FetchResult.gramPrices]
  · have hz' : (p == 0) = false := by simpa using hz
    simp only [fetch_metal_price, hcfg, hp, hz', Bool.false_eq_true, if_false,
      FetchResult.usd, FetchResult.usd10g, FetchResult.inrBase, FetchResult.inrBase10g,
      FetchResult.ouncePrices, FetchResult.gramPrices, Option.map_some',
      Option.some.injEq, calculate_prices, true_and]
    refine ⟨?_, ?_, ?_, ?_, ?_⟩ <;> ring

/-- C4: every selector whose normalized form is outside the defined set
of metals is rejected with the invalid-metal error carrying the list of
valid labels, gold and silver, and no breakdown is produced. -/
theorem C4_unknown_metal_lists_valid (m : List Char) (md : Option MetalData)
    (rr : RateResponse) (h : normalizeMetal m ∉ metalConfigKeys) :
    fetch_metal_price m md rr
      = FetchResult.invalidMetal (normalizeMetal m) ["gold".data, "silver".data] := by
  have hkeys : metalConfigKeys = ["gold".data, "silver".data] := rfl
  rw [hkeys] at h
  simp only [List.mem_cons, List.not_mem_nil, or_false, not_or] at h
  have h1 : ("gold".data == normalizeMetal m) = false := by
    rw [beq_eq_false_iff_ne]
    exact fun e => h.1 e.symm
  have h2 : ("silver".data == normalizeMetal m) = false := by
    rw [beq_eq_false_iff_ne]
    exact fun e => h.2 e.symm
  have hlookup : metalConfigLookup (normalizeMetal m) = none := by
    simp [metalConfigLookup, METAL_CONFIG, List.find?_cons, h1, h2]
  simp only [fetch_metal_price, hlookup]
  rw [hkeys]

/-- C4 witness: the selector platinum is rejected with the invalid-metal
error listing gold and silver. -/
theorem C4_witness :
    normalizeMetal "platinum".data ∉ metalConfigKeys ∧
    fetch_metal_price "platinum".data none RateResponse.failure
      = FetchResult.invalidMetal (normalizeMetal "platinum".data)
          ["gold".data, "silver".data] :=
  ⟨by decide, C4_unknown_metal_lists_valid "platinum".data none RateResponse.failure (by decide)⟩

/-- C5: for gold at spot 2000 USD/oz and rate 83, the per-ounce figures
are base 166000, GST amount 4980, duty amount 9960 (6%), and total with
tax 180940. -/
theorem C5_gold_scenario :
    (fetch_metal_price "gold".data (some { xauPrice := some 2000, xagPrice := none })
        (RateResponse.success (some 83))).inrBase = some 166000 ∧
    ((fetch_metal_price "gold".data (some { xauPrice := some 2000, xagPrice := none })
        (RateResponse.success (some 83))).ouncePrices).map Prices.gst_amount = some 4980 ∧
    ((fetch_metal_price "gold".data (some { xauPrice := some 2000, xagPrice := none })
        (RateResponse.success (some 83))).ouncePrices).map Prices.duty_amount = some 9960 ∧
    ((fetch_metal_price "gold".data (some { xauPrice := some 2000, xagPrice := none })
        (RateResponse.success (some 83))).ouncePrices).map Prices.total = some 180940 := by
  have h : fetch_metal_price "gold".data
      (some { xauPrice := some 2000, xagPrice := none }) (RateResponse.success (some 83)) =
      FetchResult.report
        { current_price_usd := 2000
          exchange_rate := 83
          current_price_inr := 2000 * 83
          price_per_10g_usd := (2000 : ℚ) / GRAMS_PER_OUNCE * 10
          price_per_10g_inr := ((2000 : ℚ) * 83) / GRAMS_PER_OUNCE * 10
          ounce_prices := calculate_prices (2000 * 83) GST_RATE (6 / 100)
          gram_prices := calculate_prices (((2000 : ℚ) * 83) / GRAMS_PER_OUNCE * 10)
            GST_RATE (6 / 100)
          import_duty_rate := 6 / 100
          metal_symbol := "🥇" } := rfl
  rw [h]
  refine ⟨?_, ?_, ?_, ?_⟩ <;>
    norm_num [FetchResult.inrBase, FetchResult.ouncePrices, Option.map_some',
      calculate_prices, GST_RATE]

/-- C6: for silver at spot 25 USD/oz and rate 83, the per-ounce figures
are base 2075, duty amount 155.625 (7.5%), and total with tax
2075 * 1.105 = 2292.875. -/
theorem C6_silver_scenario :
    (fetch_metal_price "silver".data (some { xauPrice := none, xagPrice := some 25 })
        (RateResponse.success (some 83))).inrBase = some 2075 ∧
    ((fetch_metal_price "silver".data (some { xauPrice := none, xagPrice := some 25 })
        (RateResponse.success (some 83))).ouncePrices).map Prices.duty_amount
        = some 155.625 ∧
    ((fetch_metal_price "silver".data (some { xauPrice := none, xagPrice := some 25 })
        (RateResponse.success (some 83))).ouncePrices).map Prices.total
        = some (2075 * 1.105) ∧
    (2075 * 1.105 : ℚ) = 2292.875 := by
  have h : fetch_metal_price "silver".data
      (some { xauPrice := none, xagPrice := some 25 }) (RateResponse.success (some 83)) =
      FetchResult.report
        { current_price_usd := 25
          exchange_rate := 83
          current_price_inr := 25 * 83
          price_per_10g_usd := (25 : ℚ) / GRAMS_PER_OUNCE * 10
          price_per_10g_inr := ((25 : ℚ) * 83) / GRAMS_PER_OUNCE * 10
          ounce_prices := calculate_prices (25 * 83) GST_RATE (75 / 1000)
          gram_prices := calculate_prices (((25 : ℚ) * 83) / GRAMS_PER_OUNCE * 10)
            GST_RATE (75 / 1000)
          import_duty_rate := 75 / 1000
          metal_symbol := "🥈" } := rfl
  rw [h]
  refine ⟨?_, ?_, ?_, ?_⟩ <;>
    norm_num [FetchResult.inrBase, FetchResult.ouncePrices, Option.map_some',
      calculate_prices, GST_RATE]

/-- C7: the price computation is deterministic and idempotent — two
invocations with identical metal, metal-data, and exchange-rate inputs
produce identical outputs; the embedded computation reads no state other
than its inputs. -/
theorem C7_deterministic (m₁ m₂ : List Char) (d₁ d₂ : Option MetalData)
    (r₁ r₂ : RateResponse) (hm : m₁ = m₂) (hd : d₁ = d₂) (hr : r₁ = r₂) :
    fetch_metal_price m₁ d₁ r₁ = fetch_metal_price m₂ d₂ r₂ := by
  subst hm; subst hd; subst hr; rfl

/-- C7 witness: two identical gold invocations agree. -/
theorem C7_witness :
    fetch_metal_price "gold".data none RateResponse.failure
      = fetch_metal_price "gold".data none RateResponse.failure :=
  C7_deterministic "gold".data "gold".data none none RateResponse.failure
    RateResponse.failure rfl rfl rfl

/-- C8: for every selector and every behavior of the upstream
collaborators (arbitrary fetched metal data, including absence, and an
arbitrary exchange-rate response, including failure), the operation
returns a value of the result type — an error result or a report — so
every failure is surfaced as a returned result. -/
theorem C8_always_returns_result (m : List Char) (md : Option MetalData)
    (rr : RateResponse) :
    (fetch_metal_price m md rr).isError = true ∨
    ∃ b : Breakdown, fetch_metal_price m md rr = FetchResult.report b := by
  rcases h : fetch_metal_price m md rr with a | a | a | b
  · exact Or.inl rfl
  · exact Or.inl rfl
  · exact Or.inl rfl
  · exact Or.inr ⟨b, rfl⟩

/-- C9: whenever the live exchange rate is unavailable — the request
failed or the INR rate is absent from the decoded response — the lookup
returns the fallback constant 83, and silently: the result is
indistinguishable from a live response that carried exactly 83. -/
theorem C9_silent_fallback (resp : RateResponse)
    (h : resp = RateResponse.failure ∨ resp = RateResponse.success none) :
    get_usd_to_inr_rate resp = FALLBACK_EXCHANGE_RATE ∧
    FALLBACK_EXCHANGE_RATE = 83 ∧
    get_usd_to_inr_rate resp
      = get_usd_to_inr_rate (RateResponse.success (some FALLBACK_EXCHANGE_RATE)) := by
  rcases h with h | h <;> subst h <;> exact ⟨rfl, rfl, rfl⟩

/-- C9 witness: a failed request yields the fallback rate 83. -/
theorem C9_witness :
    get_usd_to_inr_rate RateResponse.failure = FALLBACK_EXCHANGE_RATE ∧
    FALLBACK_EXCHANGE_RATE = 83 ∧
    get_usd_to_inr_rate RateResponse.failure
      = get_usd_to_inr_rate (RateResponse.success (some FALLBACK_EXCHANGE_RATE)) :=
  C9_silent_fallback RateResponse.failure (Or.inl rfl)

/-- C10: the selector is normalized before validation — every selector is
treated identically to its lowercased, whitespace-stripped form, so GOLD
(with capitals) and Silver surrounded by spaces are accepted as their
variants. -/
theorem C10_selector_normalization (m : List Char) (md : Option MetalData)
    (rr : RateResponse) :
    fetch_metal_price m md rr = fetch_metal_price (pyStrip (pyLower m)) md rr ∧
    fetch_metal_price "GOLD".data md rr = fetch_metal_price "gold".data md rr ∧
    fetch_metal_price " Silver ".data md rr = fetch_metal_price "silver".data md rr := by
  have key : ∀ w : List Char,
      fetch_metal_price w md rr = fetch_metal_price (normalizeMetal w) md rr := by
    intro w
    show fetch_metal_price w md rr = fetch_metal_price (normalizeMetal w) md rr
    unfold fetch_metal_price
    rw [normalizeMetal_idem]
  refine ⟨key m, ?_, ?_⟩
  · rw [key "GOLD".data]
    have hn : normalizeMetal "GOLD".data = "gold".data := by decide
    rw [hn]
  · rw [key " Silver ".data]
    have hn : normalizeMetal " Silver ".data = "silver".data := by decide
    rw [hn]

end MetalPrice
